import Mathlib

/-!
Verification development for `run_pretrain.py`: a shallow embedding of the
checkpoint lifecycle (`sorted_checkpoints` / `rotate_checkpoints`), the
warmup-linear learning-rate schedule (`WarmupLinearSchedule.lr_lambda`), the
data collator (`DGDataCollator.pad_and_truncate` / `DGDataCollator.mask_tokens`)
and the gradient-accumulating training loop of `pretrain`, with theorems about
the properties stated in the design document.

Modelling conventions:
* checkpoint directories are identified by their numeric step suffix (`Nat`);
* Python floats in the schedule are modelled by `ℚ` (the operations involved —
  division, subtraction, `max`, comparison — are exact on the values at stake);
* `torch.bernoulli p` is modelled by a uniform draw `u ∈ [0, 1)` with outcome
  `u < p`;
* Python exceptions (`list.index` raising `ValueError`, `shutil.rmtree`
  failing) are modelled with `Except` / an explicit error component.
-/

namespace RunPretrain

/-! ### WarmupLinearSchedule (run_pretrain.py lines 208-217) -/

/-- Decay denominator of `WarmupLinearSchedule.lr_lambda`:
`float(max(1.0, self.t_total - self.warmup_steps))`. -/
def lr_decay_denom (warmup_steps t_total : ℚ) : ℚ :=
  max 1 (t_total - warmup_steps)

/-- `WarmupLinearSchedule.lr_lambda`:
`step / max(1, warmup_steps)` during warmup, otherwise
`max(0, (t_total - step) / max(1, t_total - warmup_steps))`. -/
def lr_lambda (warmup_steps t_total step : ℚ) : ℚ :=
  if step < warmup_steps then step / max 1 warmup_steps
  else max 0 ((t_total - step) / lr_decay_denom warmup_steps t_total)

/-! ### Checkpoint lifecycle (run_pretrain.py lines 269-306) -/

/-- The swap
`checkpoints_sorted[best_model_index], checkpoints_sorted[-1] =
 checkpoints_sorted[-1], checkpoints_sorted[best_model_index]`
(both right-hand sides read before either assignment). -/
def swap_to_last (checkpoints_sorted : List Nat) (best_model_index : Nat) :
    List Nat :=
  (checkpoints_sorted.set best_model_index
      (checkpoints_sorted.getD (checkpoints_sorted.length - 1) 0)).set
    (checkpoints_sorted.length - 1)
    (checkpoints_sorted.getD best_model_index 0)

/-- `sorted_checkpoints(args, best_model_checkpoint)`: sorts the enumerated
checkpoint steps ascending, then — when a best (protected) checkpoint is
given — swaps it into the last position.  Python's `list.index` raises
`ValueError` when the protected checkpoint is not among the enumerated ones;
this is modelled by `Except.error ()`. -/
def sorted_checkpoints : Option Nat → List Nat → Except Unit (List Nat)
  | none, ckpts => Except.ok (ckpts.insertionSort (· ≤ ·))
  | some best, ckpts =>
    match (ckpts.insertionSort (· ≤ ·)).findIdx? (· == best) with
    | none => Except.error ()
    | some best_model_index =>
      Except.ok (swap_to_last (ckpts.insertionSort (· ≤ ·)) best_model_index)

/-- `rotate_checkpoints(args, best_model_checkpoint)`: returns the list of
checkpoints selected for deletion (`checkpoints_to_be_deleted`).  A `none` or
non-positive `save_total_limit` means no rotation; otherwise the oldest
`max(0, count - limit)` entries of the (swapped) sorted list are deleted when
the count exceeds the limit. -/
def rotate_checkpoints : Option Int → Option Nat → List Nat →
    Except Unit (List Nat)
  | none, _, _ => Except.ok []
  | some limit, best_model_checkpoint, ckpts =>
    if limit ≤ 0 then Except.ok []
    else
      match sorted_checkpoints best_model_checkpoint ckpts with
      | Except.error e => Except.error e
      | Except.ok checkpoints_sorted =>
        if (checkpoints_sorted.length : Int) ≤ limit then Except.ok []
        else
          Except.ok (checkpoints_sorted.take
            (max 0 ((checkpoints_sorted.length : Int) - limit)).toNat)

/-- The checkpoints remaining on disk after a successful rotation: the
enumerated checkpoints minus the deleted ones. -/
def retained_checkpoints (save_total_limit : Option Int)
    (best_model_checkpoint : Option Nat) (ckpts : List Nat) :
    Except Unit (List Nat) :=
  (rotate_checkpoints save_total_limit best_model_checkpoint ckpts).map
    (fun deleted => ckpts.filter (fun c => decide (c ∉ deleted)))

/-- The deletion loop `for checkpoint in checkpoints_to_be_deleted:
shutil.rmtree(checkpoint)`.  `fail c = true` models `shutil.rmtree` raising on
checkpoint `c` (permission error, concurrent removal, ...).  There is no
`try`/`except` in the source, so the loop stops at the first failure; the
result is the list of directories actually deleted together with the
propagated exception (if any). -/
def delete_loop (fail : Nat → Bool) : List Nat → List Nat × Option Nat
  | [] => ([], none)
  | c :: rest =>
    if fail c then ([], some c)
    else
      let r := delete_loop fail rest
      (c :: r.1, r.2)

/-- `rotate_checkpoints` together with the effect of its deletion loop under a
failure model for `shutil.rmtree`. -/
def rotate_checkpoints_run (save_total_limit : Option Int)
    (best_model_checkpoint : Option Nat) (ckpts : List Nat)
    (fail : Nat → Bool) : Except Unit (List Nat × Option Nat) :=
  (rotate_checkpoints save_total_limit best_model_checkpoint ckpts).map
    (delete_loop fail)

/-! ### Theorems: schedule (claim C8) -/

/-- **C8**: for configured (non-degenerate) warmup and total steps —
`0 < warmup_steps` and `warmup_steps + 1 ≤ t_total`, which hold for the
configured `warmup_steps = warmup_ratio * t_total` with `warmup_ratio = 0.1`
whenever there are at least two total steps — the schedule satisfies
`multiplier 0 = 0`, `multiplier warmup_steps = 1`, `multiplier t_total = 0`,
`multiplier step ∈ [0, 1]` on `[0, t_total]`, and the decay denominator is
floored at `1` (for all arguments whatsoever), so it is never zero. -/
theorem lr_lambda_endpoints_and_bounds (w T : ℚ) (hw : 0 < w) (hT : w + 1 ≤ T) :
    lr_lambda w T 0 = 0 ∧ lr_lambda w T w = 1 ∧ lr_lambda w T T = 0 ∧
      (∀ s : ℚ, 0 ≤ s → s ≤ T → 0 ≤ lr_lambda w T s ∧ lr_lambda w T s ≤ 1) ∧
      (∀ w' T' : ℚ, 1 ≤ lr_decay_denom w' T') := by
  have hdenom : lr_decay_denom w T = T - w := by
    unfold lr_decay_denom
    exact max_eq_right (by linarith)
  refine ⟨?_, ?_, ?_, ?_, fun w' T' => le_max_left _ _⟩
  · unfold lr_lambda
    rw [if_pos hw, zero_div]
  · unfold lr_lambda
    rw [if_neg (lt_irrefl w), hdenom, div_self (by linarith), max_eq_right zero_le_one]
  · unfold lr_lambda
    rw [if_neg (not_lt.mpr (by linarith)), sub_self, zero_div, max_self]
  · intro s hs hsT
    unfold lr_lambda
    by_cases h : s < w
    · rw [if_pos h]
      have hmax : (0 : ℚ) < max 1 w := lt_of_lt_of_le one_pos (le_max_left _ _)
      constructor
      · exact div_nonneg hs (le_of_lt hmax)
      · rw [div_le_one hmax]
        exact le_trans (le_of_lt h) (le_max_right _ _)
    · rw [if_neg h]
      have hD : (0 : ℚ) < lr_decay_denom w T :=
        lt_of_lt_of_le one_pos (le_max_left _ _)
      constructor
      · exact le_max_left _ _
      · refine max_le zero_le_one ?_
        rw [div_le_one hD]
        have hws : w ≤ s := not_lt.mp h
        calc T - s ≤ T - w := by linarith
        _ ≤ lr_decay_denom w T := le_max_right _ _

/-- Witness for C8 at `warmup_steps = 15`, `t_total = 150`, sample step `40`. -/
theorem lr_lambda_endpoints_and_bounds_witness :
    lr_lambda 15 150 0 = 0 ∧ lr_lambda 15 150 15 = 1 ∧ lr_lambda 15 150 150 = 0 ∧
      0 ≤ lr_lambda 15 150 40 ∧ lr_lambda 15 150 40 ≤ 1 := by
  obtain ⟨h0, hw, hT, hb, _⟩ :=
    lr_lambda_endpoints_and_bounds 15 150 (by norm_num) (by norm_num)
  exact ⟨h0, hw, hT, (hb 40 (by norm_num) (by norm_num)).1,
    (hb 40 (by norm_num) (by norm_num)).2⟩

/-! ### Theorems: rotation (claims C1, C10, C2) -/

lemma length_swap_to_last (l : List Nat) (i : Nat) :
    (swap_to_last l i).length = l.length := by
  simp [swap_to_last]

lemma getElem?_swap_to_last_last (l : List Nat) (i : Nat) (hi : i < l.length) :
    (swap_to_last l i)[l.length - 1]? = some (l.getD i 0) := by
  unfold swap_to_last
  apply List.getElem?_set_self
  rw [List.length_set]
  omega

lemma getElem?_swap_to_last_of_ne (l : List Nat) (i k : Nat)
    (hk : l.length - 1 ≠ k) (hik : i ≠ k) :
    (swap_to_last l i)[k]? = l[k]? := by
  unfold swap_to_last
  rw [List.getElem?_set_ne hk, List.getElem?_set_ne hik]

lemma getElem?_swap_to_last_at_idx (l : List Nat) (i : Nat) (hi : i < l.length)
    (hne : l.length - 1 ≠ i) :
    (swap_to_last l i)[i]? = some (l.getD (l.length - 1) 0) := by
  unfold swap_to_last
  rw [List.getElem?_set_ne hne, List.getElem?_set_self hi]

/-- **C1**: with distinct checkpoint steps, a protected checkpoint among them,
a retention limit `≥ 1` and a count exceeding the limit, `rotate_checkpoints`
deletes exactly `count - limit` directories, namely the prefix of the
ascending-sorted list after the protected checkpoint has been swapped into the
last position; the protected checkpoint is never deleted and is always
retained. -/
theorem rotate_checkpoints_protects_best
    (ckpts : List Nat) (hnd : ckpts.Nodup) (best : Nat) (hbest : best ∈ ckpts)
    (limit : Int) (hlimit : 1 ≤ limit) (hcount : limit < (ckpts.length : Int)) :
    ∃ s : List Nat,
      sorted_checkpoints (some best) ckpts = Except.ok s ∧
      s.length = ckpts.length ∧
      s.getD (s.length - 1) 0 = best ∧
      rotate_checkpoints (some limit) (some best) ckpts =
        Except.ok (s.take (ckpts.length - limit.toNat)) ∧
      (s.take (ckpts.length - limit.toNat)).length = ckpts.length - limit.toNat ∧
      best ∉ s.take (ckpts.length - limit.toNat) ∧
      ∀ r, retained_checkpoints (some limit) (some best) ckpts = Except.ok r →
        best ∈ r := by
  have hperm : (ckpts.insertionSort (· ≤ ·)).Perm ckpts :=
    List.perm_insertionSort _ _
  have hmem : best ∈ ckpts.insertionSort (· ≤ ·) := hperm.mem_iff.mpr hbest
  have hnds : (ckpts.insertionSort (· ≤ ·)).Nodup := hperm.nodup_iff.mpr hnd
  have hlen : (ckpts.insertionSort (· ≤ ·)).length = ckpts.length :=
    hperm.length_eq
  obtain ⟨i, hfind⟩ :
      ∃ i, (ckpts.insertionSort (· ≤ ·)).findIdx? (· == best) = some i :=
    ⟨_, List.findIdx?_eq_some_of_exists ⟨best, hmem, by simp⟩⟩
  obtain ⟨hi, hpi, -⟩ := List.findIdx?_eq_some_iff_getElem.mp hfind
  have hi? : (ckpts.insertionSort (· ≤ ·))[i]? = some best := by
    rw [List.getElem?_eq_getElem hi]
    simpa using hpi
  have hsc : sorted_checkpoints (some best) ckpts =
      Except.ok (swap_to_last (ckpts.insertionSort (· ≤ ·)) i) := by
    simp only [sorted_checkpoints, hfind]
  set L := ckpts.insertionSort (· ≤ ·) with hL
  set s := swap_to_last L i with hs
  have hlenpos : 0 < ckpts.length := List.length_pos.mpr (List.ne_nil_of_mem hbest)
  have hslen : s.length = ckpts.length := by
    rw [hs, length_swap_to_last]; exact hlen
  have hlast : s.getD (s.length - 1) 0 = best := by
    have h1 : s.length - 1 = L.length - 1 := by rw [hs, length_swap_to_last]
    rw [h1, hs, List.getD_eq_getElem?_getD, getElem?_swap_to_last_last L i hi]
    have h2 : L.getD i 0 = best := by
      rw [List.getD_eq_getElem?_getD, hi?]; rfl
    rw [h2]; rfl
  set n := ckpts.length - limit.toNat with hn
  have hn_lt : n < ckpts.length := by omega
  have hn_le_m : n ≤ L.length - 1 := by omega
  have htoNat : (max 0 ((s.length : Int) - limit)).toNat = n := by
    rw [hslen]; omega
  have hrot : rotate_checkpoints (some limit) (some best) ckpts =
      Except.ok (s.take n) := by
    simp only [rotate_checkpoints]
    rw [if_neg (by omega : ¬ limit ≤ 0), hsc]
    show (if (s.length : Int) ≤ limit then Except.ok [] else
        Except.ok (s.take (max 0 ((s.length : Int) - limit)).toNat)) =
      Except.ok (s.take n)
    rw [if_neg (by rw [hslen]; omega : ¬ (s.length : Int) ≤ limit), htoNat]
  have htklen : (s.take n).length = n := by
    rw [List.length_take]
    omega
  have hnotmem : best ∉ s.take n := by
    intro hmem'
    obtain ⟨k, hk?⟩ := List.mem_iff_getElem?.mp hmem'
    have hkn : k < n := by
      by_contra hge
      rw [List.getElem?_take_eq_none (by omega : n ≤ k)] at hk?
      exact Option.noConfusion hk?
    rw [List.getElem?_take_of_lt hkn, hs] at hk?
    have hkm : L.length - 1 ≠ k := by omega
    by_cases hik : i = k
    · rw [← hik] at hk?
      rw [getElem?_swap_to_last_at_idx L i hi (by omega : L.length - 1 ≠ i)] at hk?
      have hmlt : L.length - 1 < L.length := by omega
      have hval : L.getD (L.length - 1) 0 = best := Option.some.inj hk?
      have hm? : L[L.length - 1]? = some best := by
        rw [List.getD_eq_getElem?_getD, List.getElem?_eq_getElem hmlt] at hval
        simp only [Option.getD_some] at hval
        rw [List.getElem?_eq_getElem hmlt, hval]
      exact absurd (hi?.trans hm?.symm)
        ((List.nodup_iff_getElem?_ne_getElem?.mp hnds) i (L.length - 1)
          (by omega) (by omega))
    · rw [getElem?_swap_to_last_of_ne L i k hkm hik] at hk?
      rcases Nat.lt_or_ge i k with hlt | hge
      · exact absurd (hi?.trans hk?.symm)
          ((List.nodup_iff_getElem?_ne_getElem?.mp hnds) i k hlt (by omega))
      · have hlt' : k < i := by omega
        exact absurd (hk?.trans hi?.symm)
          ((List.nodup_iff_getElem?_ne_getElem?.mp hnds) k i hlt' hi)
  refine ⟨s, hsc, hslen, hlast, hrot, htklen, hnotmem, ?_⟩
  intro r hr
  unfold retained_checkpoints at hr
  rw [hrot] at hr
  simp only [Except.map] at hr
  cases hr
  rw [List.mem_filter]
  exact ⟨hbest, decide_eq_true hnotmem⟩

/-- Witness for C1 at the spec's example: checkpoints `{10,20,30,40,50}`,
retention limit `3`, protected checkpoint `30`.  The deleted prefix is
`[10, 20]` and the retained set is exactly `{30, 40, 50}`. -/
theorem rotate_checkpoints_protects_best_witness :
    rotate_checkpoints (some 3) (some 30) [10, 20, 30, 40, 50] =
      Except.ok [10, 20] ∧
    retained_checkpoints (some 3) (some 30) [10, 20, 30, 40, 50] =
      Except.ok [30, 40, 50] ∧
    ∃ s : List Nat,
      sorted_checkpoints (some 30) [10, 20, 30, 40, 50] = Except.ok s ∧
      s.length = 5 ∧
      s.getD (s.length - 1) 0 = 30 ∧
      rotate_checkpoints (some 3) (some 30) [10, 20, 30, 40, 50] =
        Except.ok (s.take 2) ∧
      (s.take 2).length = 2 ∧
      30 ∉ s.take 2 ∧
      ∀ r, retained_checkpoints (some 3) (some 30) [10, 20, 30, 40, 50] =
          Except.ok r → 30 ∈ r := by
  refine ⟨rfl, rfl, ?_⟩
  exact rotate_checkpoints_protects_best [10, 20, 30, 40, 50] (by decide)
    30 (by decide) 3 (by decide) (by decide)

/-- **C10**: when rotation is invoked with a protected checkpoint that is not
among the enumerated checkpoints (positive limit, at least one checkpoint
present), the ordering step raises an uncaught lookup error — modelled by
`Except.error ()` — instead of completing. -/
theorem rotate_checkpoints_missing_best_errors
    (ckpts : List Nat) (best : Nat) (limit : Int)
    (_hne : ckpts ≠ []) (hlimit : 1 ≤ limit) (hbest : best ∉ ckpts) :
    rotate_checkpoints (some limit) (some best) ckpts = Except.error () := by
  have hsc : sorted_checkpoints (some best) ckpts = Except.error () := by
    have hnone : (ckpts.insertionSort (· ≤ ·)).findIdx? (· == best) = none := by
      rw [List.findIdx?_eq_none_iff]
      intro x hx
      have hx' : x ∈ ckpts := (List.perm_insertionSort _ _).mem_iff.mp hx
      have : x ≠ best := fun h => hbest (h ▸ hx')
      simpa using this
    simp only [sorted_checkpoints, hnone]
  simp only [rotate_checkpoints]
  rw [if_neg (by omega : ¬ limit ≤ 0), hsc]

/-- Witness for C10: checkpoints `[10, 20, 30, 40]`, protected `35` (absent),
limit `2`. -/
theorem rotate_checkpoints_missing_best_errors_witness :
    rotate_checkpoints (some 2) (some 35) [10, 20, 30, 40] = Except.error () :=
  rotate_checkpoints_missing_best_errors [10, 20, 30, 40] 35 2
    (by decide) (by decide) (by decide)

/-- **C2 counterexample**: deletion failure is fatal, not recovered.  With
checkpoints `[10, 20, 30]`, limit `1`, protected `30`, the deletion list is
`[10, 20]`; if deleting `10` fails, the loop deletes nothing further: `20`
stays on disk even though it was scheduled, and the exception (`some 10`)
propagates — contradicting the claim that the error is reported and rotation
continues with the remaining entries. -/
theorem rotate_deletion_failure_is_fatal_counterexample :
    rotate_checkpoints (some 1) (some 30) [10, 20, 30] = Except.ok [10, 20] ∧
    rotate_checkpoints_run (some 1) (some 30) [10, 20, 30] (fun c => c == 10) =
      Except.ok ([], some 10) := by
  constructor <;> rfl

/-- **C2 amended**: the deletion loop has no exception handling, so it deletes
exactly the longest failure-free prefix of the deletion list and stops at the
first failing entry, whose exception propagates (the second component is the
uncaught error); the run is failure-free iff no scheduled entry fails. -/
theorem delete_loop_stops_at_first_failure (fail : Nat → Bool) (l : List Nat) :
    delete_loop fail l =
      (l.takeWhile (fun c => !(fail c)), (l.dropWhile (fun c => !(fail c))).head?) ∧
    ((delete_loop fail l).2 = none ↔ ∀ c ∈ l, fail c = false) := by
  have key : delete_loop fail l =
      (l.takeWhile (fun c => !(fail c)),
        (l.dropWhile (fun c => !(fail c))).head?) := by
    induction l with
    | nil => rfl
    | cons c rest ih =>
      by_cases h : fail c
      · simp [delete_loop, h, List.takeWhile_cons, List.dropWhile_cons]
      · simp [delete_loop, h, List.takeWhile_cons, List.dropWhile_cons, ih]
  refine ⟨key, ?_⟩
  rw [key]
  simp only
  constructor
  · intro hnone c hc
    by_contra hfc
    have hfc' : fail c = true := by
      cases hfail : fail c
      · exact absurd hfail hfc
      · rfl
    have : ∃ x ∈ l, ¬ (!(fail x)) = true := ⟨c, hc, by simp [hfc']⟩
    have hdw : l.dropWhile (fun c => !(fail c)) ≠ [] := by
      intro hnil
      rw [List.dropWhile_eq_nil_iff] at hnil
      obtain ⟨x, hx, hpx⟩ := this
      exact hpx (hnil x hx)
    rw [List.head?_eq_none_iff] at hnone
    exact hdw hnone
  · intro hall
    rw [List.head?_eq_none_iff, List.dropWhile_eq_nil_iff]
    intro x hx
    simp [hall x hx]

/-! ### Training loop (run_pretrain.py lines 337-388)

One epoch of the `for step, batch in enumerate(train_iterator)` loop.  The
trace records, per sub-step, which side effects fired: `optSubs` (sub-steps
where `optimizer.step()` ran), `schedSubs` (`scheduler.step()`), `zeroSubs`
(`optimizer.zero_grad()`), `logGS` (the printed `global_steps + 1` values),
`saveSubs` (sub-steps where the save branch fired) and `saveGS` (the
`global_steps` value passed to `save_model`). -/

structure LoopState where
  global_steps : Nat
  optSubs : List Nat
  schedSubs : List Nat
  zeroSubs : List Nat
  logGS : List Nat
  saveSubs : List Nat
  saveGS : List Nat

/-- The body of the inner training loop for one `step`:
`if (step + 1) % gradient_accumulation_steps == 0:` clip, optimizer step,
scheduler step, `zero_grad`, optional log, `global_steps += 1`; then
`if (global_steps + 1) % save_steps == 0:` save and rotate. -/
def trainSubStep (gradient_accumulation_steps logging_step save_steps : Nat)
    (st : LoopState) (step : Nat) : LoopState :=
  let st1 :=
    if (step + 1) % gradient_accumulation_steps = 0 then
      let stOpt := { st with
        optSubs := st.optSubs ++ [step],
        schedSubs := st.schedSubs ++ [step],
        zeroSubs := st.zeroSubs ++ [step] }
      let stLog :=
        if (stOpt.global_steps + 1) % logging_step = 0 then
          { stOpt with logGS := stOpt.logGS ++ [stOpt.global_steps + 1] }
        else stOpt
      { stLog with global_steps := stLog.global_steps + 1 }
    else st
  if (st1.global_steps + 1) % save_steps = 0 then
    { st1 with saveSubs := st1.saveSubs ++ [step],
               saveGS := st1.saveGS ++ [st1.global_steps] }
  else st1

/-- The starting state of an epoch (`global_steps = 0`, empty trace). -/
def initLoopState : LoopState := ⟨0, [], [], [], [], [], []⟩

/-- One epoch of the training loop over `num_substeps` batches. -/
def trainLoop (gradient_accumulation_steps logging_step save_steps
    num_substeps : Nat) : LoopState :=
  (List.range num_substeps).foldl
    (trainSubStep gradient_accumulation_steps logging_step save_steps)
    initLoopState

lemma trainLoop_succ (N lg sv M : Nat) :
    trainLoop N lg sv (M + 1) =
      trainSubStep N lg sv (trainLoop N lg sv M) M := by
  unfold trainLoop
  rw [List.range_succ, List.foldl_append]
  rfl

lemma trainSubStep_optSubs (N lg sv : Nat) (st : LoopState) (step : Nat) :
    (trainSubStep N lg sv st step).optSubs =
      st.optSubs ++ (if (step + 1) % N = 0 then [step] else []) := by
  simp only [trainSubStep]
  split_ifs <;> simp

lemma trainSubStep_schedSubs (N lg sv : Nat) (st : LoopState) (step : Nat) :
    (trainSubStep N lg sv st step).schedSubs =
      st.schedSubs ++ (if (step + 1) % N = 0 then [step] else []) := by
  simp only [trainSubStep]
  split_ifs <;> simp

lemma trainSubStep_zeroSubs (N lg sv : Nat) (st : LoopState) (step : Nat) :
    (trainSubStep N lg sv st step).zeroSubs =
      st.zeroSubs ++ (if (step + 1) % N = 0 then [step] else []) := by
  simp only [trainSubStep]
  split_ifs <;> simp

lemma trainSubStep_global (N lg sv : Nat) (st : LoopState) (step : Nat) :
    (trainSubStep N lg sv st step).global_steps =
      st.global_steps + (if (step + 1) % N = 0 then 1 else 0) := by
  simp only [trainSubStep]
  split_ifs <;> simp

lemma trainSubStep_saveSubs (N lg sv : Nat) (st : LoopState) (step : Nat) :
    (trainSubStep N lg sv st step).saveSubs =
      st.saveSubs ++
        (if ((st.global_steps + (if (step + 1) % N = 0 then 1 else 0)) + 1) % sv
            = 0 then [step] else []) := by
  simp only [trainSubStep]
  split_ifs <;> simp_all

lemma trainLoop_global (N lg sv M : Nat) :
    (trainLoop N lg sv M).global_steps = M / N := by
  induction M with
  | zero => simp [trainLoop, initLoopState]
  | succ M ih =>
    rw [trainLoop_succ, trainSubStep_global, ih, Nat.succ_div]
    have hiff : ((M + 1) % N = 0) ↔ N ∣ (M + 1) := by
      constructor
      · intro h; exact Nat.dvd_of_mod_eq_zero h
      · rintro ⟨c, hc⟩; rw [hc]; exact Nat.mul_mod_right N c
    simp only [hiff]

lemma trainLoop_optSubs (N lg sv M : Nat) :
    (trainLoop N lg sv M).optSubs =
      (List.range M).filter (fun s => decide ((s + 1) % N = 0)) := by
  induction M with
  | zero => rfl
  | succ M ih =>
    rw [trainLoop_succ, trainSubStep_optSubs, ih, List.range_succ,
      List.filter_append]
    congr 1
    by_cases h : (M + 1) % N = 0 <;> simp [h]

lemma trainLoop_schedSubs_eq_optSubs (N lg sv M : Nat) :
    (trainLoop N lg sv M).schedSubs = (trainLoop N lg sv M).optSubs := by
  induction M with
  | zero => rfl
  | succ M ih =>
    rw [trainLoop_succ, trainSubStep_schedSubs, trainSubStep_optSubs, ih]

lemma trainLoop_zeroSubs_eq_optSubs (N lg sv M : Nat) :
    (trainLoop N lg sv M).zeroSubs = (trainLoop N lg sv M).optSubs := by
  induction M with
  | zero => rfl
  | succ M ih =>
    rw [trainLoop_succ, trainSubStep_zeroSubs, trainSubStep_optSubs, ih]

lemma trainLoop_saveSubs (N lg sv M : Nat) :
    (trainLoop N lg sv M).saveSubs =
      (List.range M).filter (fun s => decide (((s + 1) / N + 1) % sv = 0)) := by
  induction M with
  | zero => rfl
  | succ M ih =>
    rw [trainLoop_succ, trainSubStep_saveSubs, trainLoop_global, ih,
      List.range_succ, List.filter_append]
    congr 1
    have hgs : M / N + (if (M + 1) % N = 0 then 1 else 0) = (M + 1) / N := by
      rw [Nat.succ_div]
      have hiff : ((M + 1) % N = 0) ↔ N ∣ (M + 1) := by
        constructor
        · intro h; exact Nat.dvd_of_mod_eq_zero h
        · rintro ⟨c, hc⟩; rw [hc]; exact Nat.mul_mod_right N c
      simp only [hiff]
    rw [hgs]
    by_cases h : ((M + 1) / N + 1) % sv = 0 <;> simp [h]

lemma filter_range_boundary (N : Nat) (hN : 1 ≤ N) :
    (List.range N).filter (fun j => decide ((j + 1) % N = 0)) = [N - 1] := by
  obtain ⟨P, rfl⟩ : ∃ P, N = P + 1 := ⟨N - 1, by omega⟩
  rw [List.range_succ, List.filter_append]
  have h1 : (List.range P).filter (fun j => decide ((j + 1) % (P + 1) = 0))
      = [] := by
    rw [List.filter_eq_nil_iff]
    intro j hj
    rw [List.mem_range] at hj
    simp [Nat.mod_eq_of_lt (by omega : j + 1 < P + 1)]
  rw [h1]
  simp [Nat.mod_self]

lemma filter_boundary_blocks (N k : Nat) (hN : 1 ≤ N) :
    (List.range (k * N)).filter (fun s => decide ((s + 1) % N = 0)) =
      (List.range k).map (fun j => j * N + (N - 1)) := by
  induction k with
  | zero => simp
  | succ k ih =>
    rw [show (k + 1) * N = k * N + N by ring, List.range_add,
      List.filter_append, ih, List.filter_map]
    have hcongr : (List.range N).filter ((fun s => decide ((s + 1) % N = 0)) ∘
        (fun j => k * N + j)) =
        (List.range N).filter (fun j => decide ((j + 1) % N = 0)) := by
      apply List.filter_congr
      intro j hj
      simp only [Function.comp_apply, decide_eq_decide]
      constructor
      · intro h
        have : k * N + j + 1 = j + 1 + k * N := by ring
        rw [this, Nat.add_mul_mod_self_right] at h
        exact h
      · intro h
        have : k * N + j + 1 = j + 1 + k * N := by ring
        rw [this, Nat.add_mul_mod_self_right]
        exact h
    rw [hcongr, filter_range_boundary N hN, List.range_succ, List.map_append]
    simp

/-! ### Theorems: training loop (claims C9 and C3) -/

/-- **C9**: with `gradient_accumulation_steps = N ≥ 1`, over `k` complete
accumulation windows (`k * N` sub-steps) the loop performs exactly one
optimizer update per window — at sub-steps `N-1, 2N-1, …` — for `k` updates
in total; the scheduler advances exactly when (and as often as) the optimizer
steps, gradients are zeroed in the same sub-step as each update, and
`global_steps` ends at `k`. -/
theorem accumulation_one_update_per_window (N lg sv k : Nat) (hN : 1 ≤ N) :
    (trainLoop N lg sv (k * N)).optSubs =
      (List.range k).map (fun j => j * N + (N - 1)) ∧
    (trainLoop N lg sv (k * N)).schedSubs = (trainLoop N lg sv (k * N)).optSubs ∧
    (trainLoop N lg sv (k * N)).zeroSubs = (trainLoop N lg sv (k * N)).optSubs ∧
    (trainLoop N lg sv (k * N)).optSubs.length = k ∧
    (trainLoop N lg sv (k * N)).global_steps = k := by
  have hopt : (trainLoop N lg sv (k * N)).optSubs =
      (List.range k).map (fun j => j * N + (N - 1)) := by
    rw [trainLoop_optSubs, filter_boundary_blocks N k hN]
  refine ⟨hopt, trainLoop_schedSubs_eq_optSubs N lg sv (k * N),
    trainLoop_zeroSubs_eq_optSubs N lg sv (k * N), ?_, ?_⟩
  · rw [hopt, List.length_map, List.length_range]
  · rw [trainLoop_global, Nat.mul_div_cancel k (by omega : 0 < N)]

/-- Witness for C9 at `gradient_accumulation_steps = 4`, `k = 3` windows
(12 sub-steps), logging cadence 2000, save cadence 5000: the optimizer fires
exactly at sub-steps 3, 7, 11. -/
theorem accumulation_one_update_per_window_witness :
    (trainLoop 4 2000 5000 12).optSubs = [3, 7, 11] ∧
    ((trainLoop 4 2000 5000 (3 * 4)).optSubs =
        (List.range 3).map (fun j => j * 4 + (4 - 1)) ∧
      (trainLoop 4 2000 5000 (3 * 4)).schedSubs =
        (trainLoop 4 2000 5000 (3 * 4)).optSubs ∧
      (trainLoop 4 2000 5000 (3 * 4)).zeroSubs =
        (trainLoop 4 2000 5000 (3 * 4)).optSubs ∧
      (trainLoop 4 2000 5000 (3 * 4)).optSubs.length = 3 ∧
      (trainLoop 4 2000 5000 (3 * 4)).global_steps = 3) :=
  ⟨rfl, accumulation_one_update_per_window 4 2000 5000 3 (by decide)⟩

/-- **C3 counterexample**: with `gradient_accumulation_steps = 2` and
`save_steps = 1`, after a single sub-step (which is *not* an optimizer-step
boundary) the save branch has already fired: `saveSubs = [0]` while no
optimizer step has occurred (`optSubs = []`).  The save-cadence condition is
therefore evaluated (and can trigger) on intermediate accumulation sub-steps,
not only on optimizer-step boundaries. -/
theorem save_cadence_counterexample :
    (trainLoop 2 100 1 1).optSubs = [] ∧
    (trainLoop 2 100 1 1).saveSubs = [0] ∧
    (trainLoop 2 100 1 1).saveGS = [0] :=
  ⟨rfl, rfl, rfl⟩

/-- **C3 amended**: the save-cadence condition is evaluated after *every*
data-loader sub-step (using the current `global_steps`, i.e. `(s+1)/N` after
sub-step `s`), so with `gradient_accumulation_steps ≥ 2` it can fire on
intermediate accumulation sub-steps; only for `gradient_accumulation_steps = 1`
does every firing coincide with an optimizer-step boundary, with at most one
save per optimizer step. -/
theorem save_cadence_every_substep (N lg sv M : Nat) :
    (trainLoop N lg sv M).saveSubs =
      (List.range M).filter (fun s => decide (((s + 1) / N + 1) % sv = 0)) ∧
    (trainLoop 1 lg sv M).saveSubs ⊆ (trainLoop 1 lg sv M).optSubs ∧
    (trainLoop 1 lg sv M).saveSubs.Nodup := by
  refine ⟨trainLoop_saveSubs N lg sv M, ?_, ?_⟩
  · have ho : (trainLoop 1 lg sv M).optSubs = List.range M := by
      rw [trainLoop_optSubs]
      apply List.filter_eq_self.mpr
      intro a _
      simp [Nat.mod_one]
    rw [trainLoop_saveSubs, ho]
    exact List.filter_subset' _
  · rw [trainLoop_saveSubs]
    exact (List.nodup_range M).filter _

/-! ### DGDataCollator (run_pretrain.py lines 115-194)

Tensors are modelled position-wise by lists (all tensor operations involved
are element-wise).  `torch.bernoulli p` is modelled by a uniform draw
`u ∈ [0, 1)` with outcome `u < p`; `u1`, `u2`, `u3` are the three independent
uniform-draw tensors behind the `masked_indices`, `indices_replaced` and
`indices_random` Bernoulli samples, `random_words` is the unconditionally
sampled `torch.randint` tensor. -/

/-- Default `mlm_probability = 0.15`. -/
def mlm_probability : ℚ := 15 / 100

/-- A Bernoulli(`p`) outcome obtained from a uniform draw `u ∈ [0, 1)`. -/
def bernoulli_draw (p u : ℚ) : Bool := decide (u < p)

/-- `probability_matrix = torch.full(shape, mlm_probability)` followed by
`probability_matrix.masked_fill_(special_tokens_mask, value=0.0)`. -/
def probability_matrix_row (special_tokens_mask : List Bool) : List ℚ :=
  special_tokens_mask.map (fun s => if s then 0 else mlm_probability)

/-- `masked_indices = torch.bernoulli(probability_matrix).bool()`. -/
def masked_indices_row (special_tokens_mask : List Bool) (u1 : List ℚ) :
    List Bool :=
  List.zipWith bernoulli_draw (probability_matrix_row special_tokens_mask) u1

/-- `labels = inputs.clone(); labels[~masked_indices] = -100`. -/
def labels_row (inputs : List ℤ) (masked_indices : List Bool) : List ℤ :=
  List.zipWith (fun v m => if m then v else -100) inputs masked_indices

/-- `indices_replaced = torch.bernoulli(torch.full(shape, 0.8)).bool()
& masked_indices`. -/
def indices_replaced_row (masked_indices : List Bool) (u2 : List ℚ) :
    List Bool :=
  List.zipWith (fun u m => bernoulli_draw (8 / 10) u && m) u2 masked_indices

/-- `inputs[indices_replaced] = mask_token_id`. -/
def apply_mask_token (mask_token_id : ℤ) (inputs : List ℤ)
    (indices_replaced : List Bool) : List ℤ :=
  List.zipWith (fun v r => if r then mask_token_id else v) inputs
    indices_replaced

/-- `indices_random = torch.bernoulli(torch.full(shape, 0.5)).bool()
& masked_indices & ~indices_replaced`. -/
def indices_random_row (masked_indices indices_replaced : List Bool)
    (u3 : List ℚ) : List Bool :=
  List.zipWith (fun u mr => bernoulli_draw (1 / 2) u && mr.1 && !mr.2) u3
    (masked_indices.zip indices_replaced)

/-- `inputs[indices_random] = random_words[indices_random]`. -/
def apply_random_words (inputs : List ℤ) (indices_random : List Bool)
    (random_words : List ℤ) : List ℤ :=
  List.zipWith (fun vr w => if vr.2 then w else vr.1) (inputs.zip indices_random)
    random_words

/-- `DGDataCollator.mask_tokens`: returns `(inputs, labels)` after the
80%/10%/10% corruption of the masked positions.  `labels` is cloned from the
original `inputs` before any corruption. -/
def mask_tokens (mask_token_id : ℤ) (inputs : List ℤ)
    (special_tokens_mask : List Bool) (u1 u2 u3 : List ℚ)
    (random_words : List ℤ) : List ℤ × List ℤ :=
  let masked_indices := masked_indices_row special_tokens_mask u1
  let labels := labels_row inputs masked_indices
  let indices_replaced := indices_replaced_row masked_indices u2
  let inputs1 := apply_mask_token mask_token_id inputs indices_replaced
  let indices_random := indices_random_row masked_indices indices_replaced u3
  let inputs2 := apply_random_words inputs1 indices_random random_words
  (inputs2, labels)

/-- `cur_max_seq_len = max(len(input_id) for input_id in input_ids_list)`
(as a fold with neutral element 0). -/
def batch_max_seq_len (input_ids_list : List (List ℤ)) : Nat :=
  (input_ids_list.map List.length).foldl Nat.max 0

/-- `max_seq_len = min(cur_max_seq_len, self.max_seq_len)` computed by
`DGDataCollator.__call__`. -/
def collate_seq_len (max_seq_len : Nat) (input_ids_list : List (List ℤ)) :
    Nat :=
  min (batch_max_seq_len input_ids_list) max_seq_len

/-- `DGDataCollator.pad_and_truncate`, `input_ids` field: rows with
`seq_len ≤ max_seq_len` are left-aligned into a zero matrix row; longer rows
are truncated to `max_seq_len - 1` tokens with `sep_token_id` appended. -/
def pad_and_truncate_input_ids (sep_token_id : ℤ) (max_seq_len : Nat)
    (input_ids_list : List (List ℤ)) : List (List ℤ) :=
  input_ids_list.map (fun row =>
    if row.length ≤ max_seq_len then
      row ++ List.replicate (max_seq_len - row.length) 0
    else
      row.take (max_seq_len - 1) ++ [sep_token_id])

/-- `DGDataCollator.pad_and_truncate`, `token_type_ids` / `attention_mask`
fields: the branch is chosen by `seq_len = len(input_ids_list[i])`; short rows
are zero-padded, long rows are truncated to the first `max_seq_len` entries
with no sentinel fix-up. -/
def pad_and_truncate_aux (max_seq_len : Nat)
    (input_ids_list rows : List (List ℤ)) : List (List ℤ) :=
  List.zipWith (fun ids row =>
    if ids.length ≤ max_seq_len then
      row ++ List.replicate (max_seq_len - ids.length) 0
    else
      row.take max_seq_len) input_ids_list rows

/-! Generic `getD` evaluation helpers for the position-wise reasoning. -/

lemma getD_zipWith {α β γ : Type} (f : α → β → γ) (l1 : List α) (l2 : List β)
    (d1 : α) (d2 : β) (dq : γ) (i : Nat) (h1 : i < l1.length)
    (h2 : i < l2.length) :
    (List.zipWith f l1 l2).getD i dq = f (l1.getD i d1) (l2.getD i d2) := by
  have hz : i < (List.zipWith f l1 l2).length := by
    rw [List.length_zipWith]; omega
  simp [List.getD_eq_getElem?_getD, List.getElem?_eq_getElem hz,
    List.getElem?_eq_getElem h1, List.getElem?_eq_getElem h2,
    List.getElem_zipWith]

lemma getD_map {α β : Type} (f : α → β) (l : List α) (d : α) (dq : β)
    (i : Nat) (h : i < l.length) :
    (l.map f).getD i dq = f (l.getD i d) := by
  have hm : i < (l.map f).length := by rw [List.length_map]; omega
  simp [List.getD_eq_getElem?_getD, List.getElem?_eq_getElem hm,
    List.getElem?_eq_getElem h, List.getElem_map]

/-! Position-wise evaluation of the collator pipeline. -/

lemma masked_indices_row_getD (special_tokens_mask : List Bool) (u1 : List ℚ)
    (i : Nat) (h1 : i < special_tokens_mask.length) (h2 : i < u1.length) :
    (masked_indices_row special_tokens_mask u1).getD i false =
      bernoulli_draw
        (if special_tokens_mask.getD i false then 0 else mlm_probability)
        (u1.getD i 0) := by
  unfold masked_indices_row
  rw [getD_zipWith _ _ _ (0 : ℚ) (0 : ℚ) false i
    (by rw [probability_matrix_row, List.length_map]; omega) h2]
  congr 1
  unfold probability_matrix_row
  rw [getD_map _ _ false (0 : ℚ) i h1]

lemma labels_row_getD (inputs : List ℤ) (masked_indices : List Bool) (i : Nat)
    (h1 : i < inputs.length) (h2 : i < masked_indices.length) :
    (labels_row inputs masked_indices).getD i 0 =
      if masked_indices.getD i false then inputs.getD i 0 else -100 := by
  unfold labels_row
  rw [getD_zipWith _ _ _ (0 : ℤ) false (0 : ℤ) i h1 h2]

lemma indices_replaced_row_getD (masked_indices : List Bool) (u2 : List ℚ)
    (i : Nat) (h1 : i < masked_indices.length) (h2 : i < u2.length) :
    (indices_replaced_row masked_indices u2).getD i false =
      (bernoulli_draw (8 / 10) (u2.getD i 0) && masked_indices.getD i false) := by
  unfold indices_replaced_row
  rw [getD_zipWith _ _ _ (0 : ℚ) false false i h2 h1]

lemma apply_mask_token_getD (mask_token_id : ℤ) (inputs : List ℤ)
    (indices_replaced : List Bool) (i : Nat) (h1 : i < inputs.length)
    (h2 : i < indices_replaced.length) :
    (apply_mask_token mask_token_id inputs indices_replaced).getD i 0 =
      if indices_replaced.getD i false then mask_token_id
      else inputs.getD i 0 := by
  unfold apply_mask_token
  rw [getD_zipWith _ _ _ (0 : ℤ) false (0 : ℤ) i h1 h2]

lemma indices_random_row_getD (masked_indices indices_replaced : List Bool)
    (u3 : List ℚ) (i : Nat) (h1 : i < masked_indices.length)
    (h2 : i < indices_replaced.length) (h3 : i < u3.length) :
    (indices_random_row masked_indices indices_replaced u3).getD i false =
      (bernoulli_draw (1 / 2) (u3.getD i 0) && masked_indices.getD i false
        && !(indices_replaced.getD i false)) := by
  unfold indices_random_row
  rw [getD_zipWith _ _ _ (0 : ℚ) (false, false) false i h3
    (by rw [List.length_zip]; omega)]
  have hz : i < (masked_indices.zip indices_replaced).length := by
    rw [List.length_zip]; omega
  have hzip : (masked_indices.zip indices_replaced).getD i (false, false) =
      (masked_indices.getD i false, indices_replaced.getD i false) := by
    simp [List.getD_eq_getElem?_getD, List.getElem?_eq_getElem hz,
      List.getElem?_eq_getElem h1, List.getElem?_eq_getElem h2,
      List.getElem_zip]
  rw [hzip]

lemma apply_random_words_getD (inputs : List ℤ) (indices_random : List Bool)
    (random_words : List ℤ) (i : Nat) (h1 : i < inputs.length)
    (h2 : i < indices_random.length) (h3 : i < random_words.length) :
    (apply_random_words inputs indices_random random_words).getD i 0 =
      if indices_random.getD i false then random_words.getD i 0
      else inputs.getD i 0 := by
  unfold apply_random_words
  rw [getD_zipWith _ _ _ ((0 : ℤ), false) (0 : ℤ) (0 : ℤ) i
    (by rw [List.length_zip]; omega) h3]
  have hz : i < (inputs.zip indices_random).length := by
    rw [List.length_zip]; omega
  have hzip : (inputs.zip indices_random).getD i ((0 : ℤ), false) =
      (inputs.getD i 0, indices_random.getD i false) := by
    simp [List.getD_eq_getElem?_getD, List.getElem?_eq_getElem hz,
      List.getElem?_eq_getElem h1, List.getElem?_eq_getElem h2,
      List.getElem_zip]
  rw [hzip]

lemma masked_indices_row_length (special_tokens_mask : List Bool)
    (u1 : List ℚ) :
    (masked_indices_row special_tokens_mask u1).length =
      min special_tokens_mask.length u1.length := by
  unfold masked_indices_row probability_matrix_row
  rw [List.length_zipWith, List.length_map]

lemma indices_replaced_row_length (masked_indices : List Bool) (u2 : List ℚ) :
    (indices_replaced_row masked_indices u2).length =
      min u2.length masked_indices.length := by
  unfold indices_replaced_row
  rw [List.length_zipWith]

lemma apply_mask_token_length (mask_token_id : ℤ) (inputs : List ℤ)
    (indices_replaced : List Bool) :
    (apply_mask_token mask_token_id inputs indices_replaced).length =
      min inputs.length indices_replaced.length := by
  unfold apply_mask_token
  rw [List.length_zipWith]

lemma indices_random_row_length (masked_indices indices_replaced : List Bool)
    (u3 : List ℚ) :
    (indices_random_row masked_indices indices_replaced u3).length =
      min u3.length (min masked_indices.length indices_replaced.length) := by
  unfold indices_random_row
  rw [List.length_zipWith, List.length_zip]

/-! ### Theorems: collator masking (claims C4, C5, C6) -/

/-- **C4**: the labels tensor equals the original inputs on every masked
position — it is cloned from `inputs` before any corruption, so this holds
even at positions later replaced by the mask token or a random word — and
equals the ignore sentinel `-100` on every unmasked position. -/
theorem mask_tokens_labels_spec (mask_token_id : ℤ) (inputs : List ℤ)
    (special_tokens_mask : List Bool) (u1 u2 u3 : List ℚ)
    (random_words : List ℤ)
    (hsp : special_tokens_mask.length = inputs.length)
    (hu1 : u1.length = inputs.length) (i : Nat) (hi : i < inputs.length) :
    (mask_tokens mask_token_id inputs special_tokens_mask u1 u2 u3
        random_words).2 =
      labels_row inputs (masked_indices_row special_tokens_mask u1) ∧
    ((masked_indices_row special_tokens_mask u1).getD i false = true →
      (mask_tokens mask_token_id inputs special_tokens_mask u1 u2 u3
          random_words).2.getD i 0 = inputs.getD i 0) ∧
    ((masked_indices_row special_tokens_mask u1).getD i false = false →
      (mask_tokens mask_token_id inputs special_tokens_mask u1 u2 u3
          random_words).2.getD i 0 = -100) := by
  have hml : i < (masked_indices_row special_tokens_mask u1).length := by
    rw [masked_indices_row_length]; omega
  have hlab : (mask_tokens mask_token_id inputs special_tokens_mask u1 u2 u3
      random_words).2 =
      labels_row inputs (masked_indices_row special_tokens_mask u1) := rfl
  refine ⟨hlab, ?_, ?_⟩ <;> intro h <;>
    rw [hlab, labels_row_getD inputs _ i hi hml, h] <;> simp

/-- Witness for C4: inputs `[5, 7]`, no special tokens, draws making position
0 masked; the label at position 0 is the original token `5`. -/
theorem mask_tokens_labels_spec_witness :
    (masked_indices_row [false, false] [0, 1/2]).getD 0 false = true ∧
    (mask_tokens 103 [5, 7] [false, false] [0, 1/2] [1/10, 0] [0, 0]
      [42, 43]).2.getD 0 0 = 5 ∧
    (masked_indices_row [false, false] [0, 1/2]).getD 1 false = false ∧
    (mask_tokens 103 [5, 7] [false, false] [0, 1/2] [1/10, 0] [0, 0]
      [42, 43]).2.getD 1 0 = -100 := by
  have hm0 : (masked_indices_row [false, false] [0, 1/2]).getD 0 false
      = true := by
    rw [masked_indices_row_getD _ _ 0 (by decide) (by decide)]
    norm_num [List.getD_cons_zero, List.getD_cons_succ, bernoulli_draw,
      mlm_probability]
  have hm1 : (masked_indices_row [false, false] [0, 1/2]).getD 1 false
      = false := by
    rw [masked_indices_row_getD _ _ 1 (by decide) (by decide)]
    norm_num [List.getD_cons_zero, List.getD_cons_succ, bernoulli_draw,
      mlm_probability]
  refine ⟨hm0, ?_, hm1, ?_⟩
  · exact (mask_tokens_labels_spec 103 [5, 7] [false, false] [0, 1/2]
      [1/10, 0] [0, 0] [42, 43] rfl rfl 0 (by decide)).2.1 hm0
  · exact (mask_tokens_labels_spec 103 [5, 7] [false, false] [0, 1/2]
      [1/10, 0] [0, 0] [42, 43] rfl rfl 1 (by decide)).2.2 hm1

/-- **C5**: positions flagged by the special-token mask have their masking
probability zeroed before the Bernoulli draw, so (uniform draws being
non-negative) they are never selected: `masked_indices` is `false` there and
their label is `-100`. -/
theorem special_tokens_never_masked (mask_token_id : ℤ) (inputs : List ℤ)
    (special_tokens_mask : List Bool) (u1 u2 u3 : List ℚ)
    (random_words : List ℤ)
    (hsp : special_tokens_mask.length = inputs.length)
    (hu1 : u1.length = inputs.length)
    (hu1range : ∀ u ∈ u1, 0 ≤ u)
    (i : Nat) (hi : i < inputs.length)
    (hspec : special_tokens_mask.getD i false = true) :
    (masked_indices_row special_tokens_mask u1).getD i false = false ∧
    (mask_tokens mask_token_id inputs special_tokens_mask u1 u2 u3
        random_words).2.getD i 0 = -100 := by
  have hiu : i < u1.length := by omega
  have hmasked : (masked_indices_row special_tokens_mask u1).getD i false
      = false := by
    rw [masked_indices_row_getD special_tokens_mask u1 i (by omega) hiu, hspec]
    have h0 : 0 ≤ u1.getD i 0 := by
      have hmem : u1.getD i 0 ∈ u1 := by
        rw [List.getD_eq_getElem?_getD, List.getElem?_eq_getElem hiu,
          Option.getD_some]
        exact List.getElem_mem hiu
      exact hu1range _ hmem
    simp only [if_true]
    unfold bernoulli_draw
    simp only [decide_eq_false_iff_not]
    exact not_lt.mpr h0
  have hml : i < (masked_indices_row special_tokens_mask u1).length := by
    rw [masked_indices_row_length]; omega
  refine ⟨hmasked, ?_⟩
  have hlab : (mask_tokens mask_token_id inputs special_tokens_mask u1 u2 u3
      random_words).2 =
      labels_row inputs (masked_indices_row special_tokens_mask u1) := rfl
  rw [hlab, labels_row_getD inputs _ i hi hml, hmasked]
  simp

/-- Witness for C5: position 0 carries a special token (e.g. `[CLS]`); even
with the most masking-friendly uniform draw `u = 0` it is not masked and its
label is `-100`. -/
theorem special_tokens_never_masked_witness :
    (masked_indices_row [true, false] [0, 0]).getD 0 false = false ∧
    (mask_tokens 103 [101, 7] [true, false] [0, 0] [0, 0] [0, 0]
      [42, 43]).2.getD 0 0 = -100 :=
  special_tokens_never_masked 103 [101, 7] [true, false] [0, 0] [0, 0] [0, 0]
    [42, 43] rfl rfl (by norm_num) 0 (by decide) (by decide)

/-- **C6**: the three masked-position sub-groups — replace-with-mask-token,
replace-with-random-word, keep-original — are pairwise disjoint and cover
exactly the masked positions; the random group is carved out of the masked
positions *remaining after* the replaced group (`& masked & ~replaced`), and
the (unconditionally sampled, full-shape) random-word tensor is applied only
where that sub-mask holds. -/
theorem mask_groups_partition (mask_token_id : ℤ) (inputs : List ℤ)
    (special_tokens_mask : List Bool) (u1 u2 u3 : List ℚ)
    (random_words : List ℤ)
    (hsp : special_tokens_mask.length = inputs.length)
    (hu1 : u1.length = inputs.length) (hu2 : u2.length = inputs.length)
    (hu3 : u3.length = inputs.length)
    (hrw : random_words.length = inputs.length)
    (i : Nat) (hi : i < inputs.length) :
    ∀ masked replaced rand : List Bool,
      masked = masked_indices_row special_tokens_mask u1 →
      replaced = indices_replaced_row masked u2 →
      rand = indices_random_row masked replaced u3 →
      ((replaced.getD i false && rand.getD i false) = false) ∧
      (replaced.getD i false = true → masked.getD i false = true) ∧
      (rand.getD i false = true →
        masked.getD i false = true ∧ replaced.getD i false = false) ∧
      ((replaced.getD i false || rand.getD i false ||
          (masked.getD i false && !replaced.getD i false && !rand.getD i false))
        = masked.getD i false) ∧
      (replaced.getD i false = true →
        (mask_tokens mask_token_id inputs special_tokens_mask u1 u2 u3
          random_words).1.getD i 0 = mask_token_id) ∧
      (rand.getD i false = true →
        (mask_tokens mask_token_id inputs special_tokens_mask u1 u2 u3
          random_words).1.getD i 0 = random_words.getD i 0) ∧
      ((masked.getD i false && !replaced.getD i false && !rand.getD i false)
          = true →
        (mask_tokens mask_token_id inputs special_tokens_mask u1 u2 u3
          random_words).1.getD i 0 = inputs.getD i 0) ∧
      (rand.getD i false = false →
        (mask_tokens mask_token_id inputs special_tokens_mask u1 u2 u3
          random_words).1.getD i 0 =
          (apply_mask_token mask_token_id inputs replaced).getD i 0) := by
  intro masked replaced rand hm hr hd
  subst hd; subst hr; subst hm
  have hMl : (masked_indices_row special_tokens_mask u1).length
      = inputs.length := by rw [masked_indices_row_length]; omega
  have hRl : (indices_replaced_row (masked_indices_row special_tokens_mask u1)
      u2).length = inputs.length := by
    rw [indices_replaced_row_length]; omega
  have hMv := masked_indices_row_getD special_tokens_mask u1 i (by omega)
    (by omega)
  have hRv := indices_replaced_row_getD
    (masked_indices_row special_tokens_mask u1) u2 i (by omega) (by omega)
  have hDv := indices_random_row_getD
    (masked_indices_row special_tokens_mask u1)
    (indices_replaced_row (masked_indices_row special_tokens_mask u1) u2) u3 i
    (by omega) (by omega) (by omega)
  have hout : (mask_tokens mask_token_id inputs special_tokens_mask u1 u2 u3
      random_words).1 =
      apply_random_words
        (apply_mask_token mask_token_id inputs
          (indices_replaced_row (masked_indices_row special_tokens_mask u1) u2))
        (indices_random_row (masked_indices_row special_tokens_mask u1)
          (indices_replaced_row (masked_indices_row special_tokens_mask u1) u2)
          u3)
        random_words := rfl
  have houtv : (mask_tokens mask_token_id inputs special_tokens_mask u1 u2 u3
      random_words).1.getD i 0 =
      if (indices_random_row (masked_indices_row special_tokens_mask u1)
          (indices_replaced_row (masked_indices_row special_tokens_mask u1) u2)
          u3).getD i false then
        random_words.getD i 0
      else
        (apply_mask_token mask_token_id inputs
          (indices_replaced_row (masked_indices_row special_tokens_mask u1)
            u2)).getD i 0 := by
    rw [hout]
    exact apply_random_words_getD _ _ _ i
      (by rw [apply_mask_token_length]; omega)
      (by rw [indices_random_row_length]; omega) (by omega)
  have hamv := apply_mask_token_getD mask_token_id inputs
    (indices_replaced_row (masked_indices_row special_tokens_mask u1) u2) i
    (by omega) (by omega)
  simp only [houtv, hamv, hDv, hRv, hMv]
  cases hb1 : bernoulli_draw
      (if special_tokens_mask.getD i false then 0 else mlm_probability)
      (u1.getD i 0) <;>
    cases hb2 : bernoulli_draw (8 / 10) (u2.getD i 0) <;>
      cases hb3 : bernoulli_draw (1 / 2) (u3.getD i 0) <;> simp

/-- Witness for C6: position 0 is masked and lands in the replace-with-mask
group, so the output token is the mask id `103` and the groups behave as a
partition there. -/
theorem mask_groups_partition_witness :
    (indices_replaced_row (masked_indices_row [false, false] [0, 1/2])
      [1/10, 0]).getD 0 false = true ∧
    (mask_tokens 103 [5, 7] [false, false] [0, 1/2] [1/10, 0] [0, 0]
      [42, 43]).1.getD 0 0 = 103 := by
  have h := mask_groups_partition 103 [5, 7] [false, false] [0, 1/2]
    [1/10, 0] [0, 0] [42, 43] rfl rfl rfl rfl rfl 0 (by decide)
    (masked_indices_row [false, false] [0, 1/2])
    (indices_replaced_row (masked_indices_row [false, false] [0, 1/2])
      [1/10, 0])
    (indices_random_row (masked_indices_row [false, false] [0, 1/2])
      (indices_replaced_row (masked_indices_row [false, false] [0, 1/2])
        [1/10, 0]) [0, 0])
    rfl rfl rfl
  have hm0 : (masked_indices_row [false, false] [0, 1/2]).getD 0 false
      = true := by
    rw [masked_indices_row_getD _ _ 0 (by decide) (by decide)]
    norm_num [List.getD_cons_zero, List.getD_cons_succ, bernoulli_draw,
      mlm_probability]
  have hrep : (indices_replaced_row (masked_indices_row [false, false] [0, 1/2])
      [1/10, 0]).getD 0 false = true := by
    rw [indices_replaced_row_getD _ _ 0
      (by rw [masked_indices_row_length]; decide) (by decide), hm0]
    norm_num [List.getD_cons_zero, bernoulli_draw]
  exact ⟨hrep, h.2.2.2.2.1 hrep⟩

/-! ### Theorems: collator padding/truncation (claim C7) -/

/-- **C7**: the collator computes `L = min(max example length, configured max
length)` (the fold with neutral 0 agrees with the maximum on non-empty
batches); every example with `len ≤ L` is left-aligned and zero-padded in all
three fields, and every example with `len > L` has its `token_ids` truncated
to the first `L-1` elements with the end-of-sequence sentinel appended, while
`segment_ids`/`attention_mask` are truncated to their first `L` elements with
no sentinel fix-up. -/
theorem pad_and_truncate_spec (sep_token_id : ℤ) (configured_max : Nat)
    (input_ids_list token_type_ids_list attention_mask_list : List (List ℤ))
    (hne : input_ids_list ≠ [])
    (htt : token_type_ids_list.length = input_ids_list.length)
    (ham : attention_mask_list.length = input_ids_list.length)
    (i : Nat) (hi : i < input_ids_list.length) :
    collate_seq_len configured_max input_ids_list =
      min (batch_max_seq_len input_ids_list) configured_max ∧
    (input_ids_list.map List.length).max?.getD 0 =
      batch_max_seq_len input_ids_list ∧
    ∀ L : Nat,
      ((input_ids_list.getD i []).length ≤ L →
        (pad_and_truncate_input_ids sep_token_id L input_ids_list).getD i [] =
          input_ids_list.getD i [] ++
            List.replicate (L - (input_ids_list.getD i []).length) 0 ∧
        (pad_and_truncate_aux L input_ids_list token_type_ids_list).getD i [] =
          token_type_ids_list.getD i [] ++
            List.replicate (L - (input_ids_list.getD i []).length) 0 ∧
        (pad_and_truncate_aux L input_ids_list attention_mask_list).getD i [] =
          attention_mask_list.getD i [] ++
            List.replicate (L - (input_ids_list.getD i []).length) 0) ∧
      (L < (input_ids_list.getD i []).length →
        (pad_and_truncate_input_ids sep_token_id L input_ids_list).getD i [] =
          (input_ids_list.getD i []).take (L - 1) ++ [sep_token_id] ∧
        (pad_and_truncate_aux L input_ids_list token_type_ids_list).getD i [] =
          (token_type_ids_list.getD i []).take L ∧
        (pad_and_truncate_aux L input_ids_list attention_mask_list).getD i [] =
          (attention_mask_list.getD i []).take L) := by
  refine ⟨rfl, ?_, ?_⟩
  · cases input_ids_list with
    | nil => exact absurd rfl hne
    | cons r rest =>
      rw [List.map_cons, List.max?_cons', Option.getD_some]
      unfold batch_max_seq_len
      rw [List.map_cons, List.foldl_cons]
      have hinit : Nat.max 0 r.length = r.length := Nat.zero_max _
      rw [hinit]
  · intro L
    have hids : (pad_and_truncate_input_ids sep_token_id L input_ids_list).getD
        i [] =
        if (input_ids_list.getD i []).length ≤ L then
          input_ids_list.getD i [] ++
            List.replicate (L - (input_ids_list.getD i []).length) 0
        else (input_ids_list.getD i []).take (L - 1) ++ [sep_token_id] := by
      unfold pad_and_truncate_input_ids
      rw [getD_map _ _ [] [] i hi]
    have htt' : (pad_and_truncate_aux L input_ids_list
        token_type_ids_list).getD i [] =
        if (input_ids_list.getD i []).length ≤ L then
          token_type_ids_list.getD i [] ++
            List.replicate (L - (input_ids_list.getD i []).length) 0
        else (token_type_ids_list.getD i []).take L := by
      unfold pad_and_truncate_aux
      rw [getD_zipWith _ _ _ [] [] [] i hi (by omega)]
    have ham' : (pad_and_truncate_aux L input_ids_list
        attention_mask_list).getD i [] =
        if (input_ids_list.getD i []).length ≤ L then
          attention_mask_list.getD i [] ++
            List.replicate (L - (input_ids_list.getD i []).length) 0
        else (attention_mask_list.getD i []).take L := by
      unfold pad_and_truncate_aux
      rw [getD_zipWith _ _ _ [] [] [] i hi (by omega)]
    constructor
    · intro h
      rw [hids, htt', ham', if_pos h, if_pos h, if_pos h]
      exact ⟨rfl, rfl, rfl⟩
    · intro h
      rw [hids, htt', ham', if_neg (by omega), if_neg (by omega),
        if_neg (by omega)]
      exact ⟨rfl, rfl, rfl⟩

/-- Witness for C7 at the spec's example: three examples of lengths
`{5, 12, 8}` with `max_len = 10`: the collated length is `L = 10`, the
length-12 example is truncated to 9 tokens plus the sentinel (`102`) as its
final kept token, and a short example is zero-padded. -/
theorem pad_and_truncate_spec_witness :
    collate_seq_len 10
      [[1, 2, 3, 4, 5],
       [1, 2, 3, 4, 5, 6, 7, 8, 9, 10, 11, 12],
       [1, 2, 3, 4, 5, 6, 7, 8]] = 10 ∧
    (pad_and_truncate_input_ids 102 10
      [[1, 2, 3, 4, 5],
       [1, 2, 3, 4, 5, 6, 7, 8, 9, 10, 11, 12],
       [1, 2, 3, 4, 5, 6, 7, 8]]).getD 1 [] =
      [1, 2, 3, 4, 5, 6, 7, 8, 9] ++ [102] ∧
    ((pad_and_truncate_input_ids 102 10
      [[1, 2, 3, 4, 5],
       [1, 2, 3, 4, 5, 6, 7, 8, 9, 10, 11, 12],
       [1, 2, 3, 4, 5, 6, 7, 8]]).getD 1 []).getD 9 0 = 102 ∧
    (pad_and_truncate_input_ids 102 10
      [[1, 2, 3, 4, 5],
       [1, 2, 3, 4, 5, 6, 7, 8, 9, 10, 11, 12],
       [1, 2, 3, 4, 5, 6, 7, 8]]).getD 0 [] =
      [1, 2, 3, 4, 5] ++ List.replicate 5 0 ∧
    (pad_and_truncate_aux 10
      [[1, 2, 3, 4, 5],
       [1, 2, 3, 4, 5, 6, 7, 8, 9, 10, 11, 12],
       [1, 2, 3, 4, 5, 6, 7, 8]]
      [[0, 0, 0, 0, 0],
       [0, 0, 0, 0, 0, 0, 1, 1, 1, 1, 1, 1],
       [0, 0, 0, 0, 1, 1, 1, 1]]).getD 1 [] =
      [0, 0, 0, 0, 0, 0, 1, 1, 1, 1] := by
  have h := pad_and_truncate_spec 102 10
    [[1, 2, 3, 4, 5],
     [1, 2, 3, 4, 5, 6, 7, 8, 9, 10, 11, 12],
     [1, 2, 3, 4, 5, 6, 7, 8]]
    [[0, 0, 0, 0, 0],
     [0, 0, 0, 0, 0, 0, 1, 1, 1, 1, 1, 1],
     [0, 0, 0, 0, 1, 1, 1, 1]]
    [[1, 1, 1, 1, 1],
     [1, 1, 1, 1, 1, 1, 1, 1, 1, 1, 1, 1],
     [1, 1, 1, 1, 1, 1, 1, 1]]
    (by decide) (by decide) (by decide) 1 (by decide)
  obtain ⟨-, -, h3⟩ := h
  obtain ⟨hids, htt, -⟩ := (h3 10).2 (by decide)
  refine ⟨by decide, ?_, ?_, by decide, ?_⟩
  · rw [hids]; decide
  · rw [hids]; decide
  · rw [htt]; decide

end RunPretrain
